import Mathlib

/-!
Verification development for a thin SharePoint client wrapper
(`sharepoint.py` + `decorators.py`).

The embedding models the two source files faithfully:

* Local filesystem, the remote document store and the remote folder
  listing data are explicit state (`World`); the external collaborators
  (the `office365` client library and the OS) are modelled by the small
  lookup/insert semantics below.
* Every remote-API interaction the client issues is recorded in a trace
  (`RemoteCall`), carrying the exact server-relative path string the
  source code builds, so that path-shape claims are about the strings
  actually handed to the collaborator.
* The source contains no exception handling at all, so collaborator
  failures propagate unchanged; errors are `SPError.raw e` where `e` is
  the collaborator's own error.  The spec's wrapped error taxonomy
  (`AuthConfigError` / `RemoteIOError` / `LocalIOError` with operation
  name and path) exists as `WrappedErr` only so that theorems can state
  whether the code ever produces it.
-/

/-- File content as a list of bytes. -/
abbrev Bytes := List Nat

/-- Association-list lookup keyed by strings (models dict/store lookup). -/
def lookupL {α : Type} : List (String × α) → String → Option α
  | [], _ => none
  | (k, v) :: rest, k' => if k = k' then some v else lookupL rest k'

/-- Association-list insert-or-replace (models create-or-replace semantics). -/
def insertL {α : Type} (s : List (String × α)) (k : String) (v : α) : List (String × α) :=
  (k, v) :: s.filter (fun e => e.1 != k)

/-- One step of `os.path.basename`: scanning left to right, a `/` resets the
accumulated component, any other character extends it. -/
def basenameStep (acc : List Char) (c : Char) : List Char :=
  if c = '/' then [] else acc ++ [c]

/-- The characters of a path after its last `/` (all of them when there is none). -/
def basenameChars (l : List Char) : List Char := l.foldl basenameStep []

/-- `os.path.basename` (POSIX): the part of the path after the last `/`. -/
def basename (p : String) : String := String.mk (basenameChars p.data)

/-- `os.path.join` (POSIX, two arguments): an absolute second component wins,
otherwise the components are joined with a single `/` unless the first already
ends with one or is empty. -/
def os_path_join (a b : String) : String :=
  if b.startsWith "/" then b
  else if a = "" ∨ a.endsWith "/" then a ++ b
  else a ++ "/" ++ b

/-- An error raised by an external collaborator (the OS or the `office365`
client library).  The source never catches any of these. -/
inductive CollabErr where
  | osError (fn : String) (path : String)
  | clientRequestError (path : String)
  | authError (detail : String)
deriving DecidableEq

/-- The spec's wrapped error taxonomy: each kind carries the operation name
and the attempted path.  No constructor of this type appears anywhere in the
source code. -/
inductive WrappedErr where
  | authConfigError (op : String) (path : String)
  | remoteIOError (op : String) (path : String)
  | localIOError (op : String) (path : String)
deriving DecidableEq

/-- An error surfaced to the caller of the client: either a collaborator's
error propagated unchanged (`raw`, the only form the source can produce,
since it contains no `try`/`except`), or a spec-style wrapped error. -/
inductive SPError where
  | raw (e : CollabErr)
  | wrapped (we : WrappedErr)
deriving DecidableEq

/-- Whether an error is a collaborator error propagated unchanged. -/
def SPError.isRaw : SPError → Bool
  | .raw _ => true
  | .wrapped _ => false

/-- The authenticated session handle produced by
`ClientContext(url).with_credentials(...)`; opaque to this layer. -/
structure ClientContext where
  site_url : String
deriving DecidableEq

/-- The session provider collaborator: given the site url, username and
password, it either produces a session handle or rejects the credentials
with its own (opaque) error. -/
abbrev SessionProvider := String → String → String → Except CollabErr ClientContext

/-- The `SharePoint` dataclass: configuration fields plus the session handle
assigned by `__post_init__`.  `doc` defaults to `"Shared Documents"` at the
construction function. -/
structure SharePoint where
  url : String
  username : String
  password : String
  site_name : String
  doc : String
  session : ClientContext
deriving DecidableEq

/-- `__post_init__`: builds the session by calling the provider on
`f"{self.url}/sites/{self.site_name}"` with the credentials and stores it in
`self.session`.  There is no `try`/`except`: a provider rejection propagates
unchanged (as `SPError.raw`), and no `SharePoint` value (hence no session
handle) is produced. -/
def post_init (provider : SessionProvider)
    (url username password site_name doc : String) : Except SPError SharePoint :=
  match provider (url ++ "/sites/" ++ site_name) username password with
  | .ok ctx =>
      .ok { url := url, username := username, password := password,
            site_name := site_name, doc := doc, session := ctx }
  | .error e => .error (.raw e)

/-- A remote file handle as exposed by the `office365` library; `content` is
the file's bytes held by the remote store, and the server-reported `length`
property is its byte count. -/
structure FileHandle where
  unique_id : String
  name : String
  major_version : Nat
  minor_version : Nat
  content : Bytes
  time_created : String
  time_last_modified : String
deriving DecidableEq

/-- The `length` property of a remote file: the byte length of its content. -/
def FileHandle.length (f : FileHandle) : Nat := f.content.length

/-- The listing data of a remote folder: its files and its child folder names. -/
structure FolderData where
  files : List FileHandle
  folders : List String
deriving DecidableEq

/-- A lazily resolved remote folder handle: `get_folder_by_server_relative_url`
builds a client object holding the path; no HTTP happens until a query
executes against it. -/
structure FolderHandle where
  serverRelativeUrl : String
deriving DecidableEq

/-- `session.web.get_folder_by_server_relative_url(path)`: returns a lazy
handle bound to the given server-relative path. -/
def get_folder_by_server_relative_url (path : String) : FolderHandle :=
  { serverRelativeUrl := path }

/-- A remote-API interaction, carrying the exact path string the client built
for it. -/
inductive RemoteCall where
  | getFolderByServerRelativeUrl (path : String)
  | getFolderByServerRelativePath (path : String)
  | uploadFile (folderPath : String) (fileName : String) (content : Bytes)
  | openBinary (path : String)
  | foldersAdd (parentPath : String) (newFolder : String)
  | expandGet (folderPath : String) (collections : List String)
deriving DecidableEq

/-- The observable state the client acts on: the local filesystem (files and
directories), the remote content store keyed by full server-relative file
path, and the remote folder listing data keyed by the folder path string the
client sends. -/
structure World where
  localFiles : List (String × Bytes)
  localDirs : List String
  remote : List (String × Bytes)
  remoteFolders : List (String × FolderData)
deriving DecidableEq

/-- The outcome of running one client operation: its result (or the
propagated collaborator error), the updated world, and the trace of remote
calls issued, in order. -/
structure RunResult (α : Type) where
  result : Except SPError α
  world : World
  calls : List RemoteCall

/-- True unless the run failed with one of the spec's wrapped error kinds. -/
def neverWrapped {α : Type} (r : RunResult α) : Bool :=
  match r.result with
  | .error (.wrapped _) => false
  | _ => true

/-- The server-relative path f-string `f'/sites/{self.site_name}/{self.doc}/{rel}'`
used inline by `_send_file_to_sharepoint` and `_get_sharepoint_file_content`. -/
def serverPath (sp : SharePoint) (rel : String) : String :=
  "/sites/" ++ sp.site_name ++ "/" ++ sp.doc ++ "/" ++ rel

/-- `decorator_root_folder`: the shared resolution routine.  Before the
wrapped body runs, it resolves the caller's relative path by prefixing it
with `f"{self.doc}/{parent_folder}"` — only the document library, no site
segment — and calling `get_folder_by_server_relative_url`.  The resolution
call is recorded first in the trace. -/
def decorator_root_folder {α : Type}
    (body : SharePoint → FolderHandle → World → RunResult α)
    (sp : SharePoint) (parent_folder : String) (w : World) : RunResult α :=
  let folder_name := get_folder_by_server_relative_url (sp.doc ++ "/" ++ parent_folder)
  let r := body sp folder_name w
  { result := r.result, world := r.world,
    calls := RemoteCall.getFolderByServerRelativeUrl folder_name.serverRelativeUrl :: r.calls }

/-- `_get_local_file_content`: `open(local_file, 'rb').read()`.  Returns the
full bytes, or the OS's own error (e.g. `FileNotFoundError` from `open`) when
the local file cannot be read. -/
def _get_local_file_content (sp : SharePoint) (local_file : String) (w : World) :
    Except CollabErr Bytes :=
  match lookupL w.localFiles local_file with
  | some b => .ok b
  | none => .error (.osError "open" local_file)

/-- `_send_file_to_sharepoint`: resolves the target folder inline via
`get_folder_by_server_relative_path` on the full
`f'/sites/{self.site_name}/{self.doc}/{folder_name}'` path, then issues one
`upload_file(file_name, file_content).execute_query()` create-or-replace
request.  The remote store's own upload semantics (create-or-replace at
`folder/name`) is the collaborator's. -/
def _send_file_to_sharepoint (sp : SharePoint)
    (file_name folder_name : String) (file_content : Bytes) (w : World) : RunResult Unit :=
  let target := serverPath sp folder_name
  { result := .ok (),
    world := { w with remote := insertL w.remote (target ++ "/" ++ file_name) file_content },
    calls := [RemoteCall.getFolderByServerRelativePath target,
              RemoteCall.uploadFile target file_name file_content] }

/-- `upload_file`: reads the local file fully into memory via
`_get_local_file_content`, then sends it via `_send_file_to_sharepoint`
named `os.path.basename(local_file_path)`.  A failed local read propagates
before any remote interaction. -/
def upload_file (sp : SharePoint)
    (local_file_path sharepoint_destination : String) (w : World) : RunResult Unit :=
  match _get_local_file_content sp local_file_path w with
  | .error e => { result := .error (.raw e), world := w, calls := [] }
  | .ok file_content =>
      _send_file_to_sharepoint sp (basename local_file_path) sharepoint_destination file_content w

/-- `_get_sharepoint_file_content`: `File.open_binary(self.session,
f'/sites/{self.site_name}/{self.doc}/{source}')`, returning the remote
file's bytes, or the library's own error when the path does not resolve. -/
def _get_sharepoint_file_content (sp : SharePoint) (source : String) (w : World) :
    RunResult Bytes :=
  let path := serverPath sp source
  match lookupL w.remote path with
  | some b => { result := .ok b, world := w, calls := [RemoteCall.openBinary path] }
  | none => { result := .error (.raw (.clientRequestError path)), world := w,
              calls := [RemoteCall.openBinary path] }

/-- `_save_file`: if the destination directory does not exist it is created
(`os.makedirs(destination, exist_ok=True)`), then the bytes are written to
`os.path.join(destination, file_name)`. -/
def _save_file (file_name : String) (file_obj : Bytes) (destination : String)
    (w : World) : RunResult Unit :=
  let w1 := if destination ∈ w.localDirs then w
            else { w with localDirs := destination :: w.localDirs }
  let file_dir_path := os_path_join destination file_name
  { result := .ok (),
    world := { w1 with localFiles := insertL w1.localFiles file_dir_path file_obj },
    calls := [] }

/-- `download_file`: reads the remote file's full binary content via
`_get_sharepoint_file_content`, then writes it via `_save_file` under
`os.path.basename(sharepoint_source)`. -/
def download_file (sp : SharePoint)
    (sharepoint_source destination : String) (w : World) : RunResult Unit :=
  let r := _get_sharepoint_file_content sp sharepoint_source w
  match r.result with
  | .error e => { result := .error e, world := r.world, calls := r.calls }
  | .ok file_obj =>
      let s := _save_file (basename sharepoint_source) file_obj destination r.world
      { result := s.result, world := s.world, calls := r.calls ++ s.calls }

/-- Body of `create_folder` (runs after the decorator's resolution):
`parent_folder.folders.add(new_folder).execute_query()`.  The query fails
with the library's own error when the parent path does not resolve;
otherwise the child folder name is appended (the remote's collision policy
is its own: a duplicate name is simply passed through). -/
def create_folder_body (sp : SharePoint) (parent_folder : FolderHandle)
    (new_folder : String) (w : World) : RunResult Unit :=
  match lookupL w.remoteFolders parent_folder.serverRelativeUrl with
  | some fd =>
      let fd1 : FolderData := { fd with folders := fd.folders ++ [new_folder] }
      { result := .ok (),
        world := { w with remoteFolders := insertL w.remoteFolders parent_folder.serverRelativeUrl fd1 },
        calls := [RemoteCall.foldersAdd parent_folder.serverRelativeUrl new_folder] }
  | none =>
      { result := .error (.raw (.clientRequestError parent_folder.serverRelativeUrl)),
        world := w,
        calls := [RemoteCall.foldersAdd parent_folder.serverRelativeUrl new_folder] }

/-- `create_folder`, wrapped by `decorator_root_folder`. -/
def create_folder (sp : SharePoint) (parent_folder new_folder : String) (w : World) :
    RunResult Unit :=
  decorator_root_folder (fun sp h w => create_folder_body sp h new_folder w) sp parent_folder w

/-- Body of `get_files_list` (runs after the decorator's resolution):
`parent_folder.expand(["Files", "Folders"]).get().execute_query()` then
`return parent_folder.files` — the files exactly as the remote reports them,
in the remote's order, not re-sorted. -/
def get_files_list_body (sp : SharePoint) (parent_folder : FolderHandle) (w : World) :
    RunResult (List FileHandle) :=
  match lookupL w.remoteFolders parent_folder.serverRelativeUrl with
  | some fd =>
      { result := .ok fd.files, world := w,
        calls := [RemoteCall.expandGet parent_folder.serverRelativeUrl ["Files", "Folders"]] }
  | none =>
      { result := .error (.raw (.clientRequestError parent_folder.serverRelativeUrl)),
        world := w,
        calls := [RemoteCall.expandGet parent_folder.serverRelativeUrl ["Files", "Folders"]] }

/-- `get_files_list`, wrapped by `decorator_root_folder`. -/
def get_files_list (sp : SharePoint) (parent_folder : String) (w : World) :
    RunResult (List FileHandle) :=
  decorator_root_folder get_files_list_body sp parent_folder w

/-- Body of `get_folder_list` (runs after the decorator's resolution):
`parent_folder.expand(["Folders"]).get().execute_query()` then
`return parent_folder.folders`. -/
def get_folder_list_body (sp : SharePoint) (parent_folder : FolderHandle) (w : World) :
    RunResult (List String) :=
  match lookupL w.remoteFolders parent_folder.serverRelativeUrl with
  | some fd =>
      { result := .ok fd.folders, world := w,
        calls := [RemoteCall.expandGet parent_folder.serverRelativeUrl ["Folders"]] }
  | none =>
      { result := .error (.raw (.clientRequestError parent_folder.serverRelativeUrl)),
        world := w,
        calls := [RemoteCall.expandGet parent_folder.serverRelativeUrl ["Folders"]] }

/-- `get_folder_list`, wrapped by `decorator_root_folder`. -/
def get_folder_list (sp : SharePoint) (parent_folder : String) (w : World) :
    RunResult (List String) :=
  decorator_root_folder get_folder_list_body sp parent_folder w

/-- One metadata record of `get_file_properties_from_folder`'s return value. -/
structure FileProperties where
  file_id : String
  file_name : String
  major_version : Nat
  minor_version : Nat
  file_size : Nat
  time_created : String
  time_last_modified : String
deriving DecidableEq

/-- The projection the inner generator `name(files)` performs on one file
handle: yields the dict of id, name, versions, `file_size: file.length`, and
timestamps. -/
def projectFile (f : FileHandle) : FileProperties :=
  { file_id := f.unique_id, file_name := f.name,
    major_version := f.major_version, minor_version := f.minor_version,
    file_size := f.length,
    time_created := f.time_created, time_last_modified := f.time_last_modified }

/-- `get_file_properties_from_folder`: calls `self.get_files_list(folder_name)`,
then materialises `list(name(files=files_list))` — an eager map of
`projectFile` over the returned handles, with no further remote call. -/
def get_file_properties_from_folder (sp : SharePoint) (folder_name : String) (w : World) :
    RunResult (List FileProperties) :=
  let r := get_files_list sp folder_name w
  match r.result with
  | .error e => { result := .error e, world := r.world, calls := r.calls }
  | .ok files_list =>
      { result := .ok (files_list.map projectFile), world := r.world, calls := r.calls }

/-- Test fixture: a session provider that rejects every credential pair. -/
def badProvider : SessionProvider :=
  fun _ _ _ => .error (.authError "invalid credentials")

/-- Test fixture: a session handle. -/
def ctx0 : ClientContext := { site_url := "https://contoso.example.com/sites/ps.all" }

/-- Test fixture: a constructed client. -/
def sp0 : SharePoint :=
  { url := "https://contoso.example.com", username := "user", password := "pw",
    site_name := "ps.all", doc := "Shared Documents", session := ctx0 }

/-- Test fixture: a remote file handle. -/
def fh0 : FileHandle :=
  { unique_id := "id-1", name := "test.csv", major_version := 1, minor_version := 0,
    content := [97, 44, 98], time_created := "2021-12-24T14:39:30Z",
    time_last_modified := "2021-12-24T14:39:35Z" }

/-- Whether a run's first remote call is the shared decorator's resolution
call — `get_folder_by_server_relative_url` on `f"{self.doc}/{arg}"` — so that
resolution happened through `decorator_root_folder` before anything else. -/
def resolvesViaSharedRoutine {α : Type} (r : RunResult α) (sp : SharePoint)
    (arg : String) : Bool :=
  match r.calls with
  | RemoteCall.getFolderByServerRelativeUrl p :: _ => p == sp.doc ++ "/" ++ arg
  | _ => false

/-- Whether a construction outcome is a failure with the spec's wrapped
`AuthConfigError` kind. -/
def failsWithAuthConfigError (r : Except SPError SharePoint) : Bool :=
  match r with
  | .error (.wrapped (.authConfigError _ _)) => true
  | _ => false

/-- Whether a run failed with one of the spec's wrapped error kinds. -/
def failsWrapped {α : Type} (r : RunResult α) : Bool :=
  match r.result with
  | .error (.wrapped _) => true
  | _ => false

/-- Test fixture: a world with one local file and one remote folder. -/
def w0 : World :=
  { localFiles := [("examples/test.csv", [49, 50, 51])], localDirs := [],
    remote := [],
    remoteFolders := [("Shared Documents/General", { files := [fh0], folders := ["Reports"] })] }

/-- Test fixture: a world holding one remote file for download. -/
def wDl : World :=
  { localFiles := [], localDirs := ["somewhere"],
    remote := [("/sites/ps.all/Shared Documents/General/test.csv", [104, 105])],
    remoteFolders := [] }

/-- Folding `basenameStep` over characters without `/` appends them all. -/
theorem foldl_basenameStep_no_slash (l : List Char) (acc : List Char) (h : '/' ∉ l) :
    l.foldl basenameStep acc = acc ++ l := by
  induction l generalizing acc with
  | nil => simp
  | cons c cs ih =>
      simp only [List.mem_cons, not_or] at h
      simp only [List.foldl_cons, basenameStep]
      rw [if_neg (fun hc => h.1 hc.symm), ih (acc ++ [c]) h.2]
      simp

/-- The output of `basenameStep` folding never contains `/`. -/
theorem slash_not_mem_foldl_basenameStep (l : List Char) (acc : List Char)
    (h : '/' ∉ acc) : '/' ∉ l.foldl basenameStep acc := by
  induction l generalizing acc with
  | nil => exact h
  | cons c cs ih =>
      simp only [List.foldl_cons]
      apply ih
      unfold basenameStep
      by_cases hc : c = '/'
      · simp [hc]
      · simp only [if_neg hc, List.mem_append, List.mem_singleton, not_or]
        exact ⟨h, fun hs => hc hs.symm⟩

/-- A basename never contains `/`. -/
theorem slash_not_mem_basename (p : String) : '/' ∉ (basename p).data :=
  slash_not_mem_foldl_basenameStep p.data [] (by simp)

/-- `basenameChars` of anything followed by `/` and a slash-free tail is the tail. -/
theorem basenameChars_append_slash (xs ys : List Char) (h : '/' ∉ ys) :
    basenameChars (xs ++ '/' :: ys) = ys := by
  unfold basenameChars
  rw [List.foldl_append, List.foldl_cons]
  have hstep : basenameStep (xs.foldl basenameStep []) '/' = [] := by
    simp [basenameStep]
  rw [hstep, foldl_basenameStep_no_slash ys [] h]
  simp

/-- `os.path.basename` of a path built as `dir ++ "/" ++ name` is `name`
whenever `name` has no `/`. -/
theorem basename_append (s t : String) (h : '/' ∉ t.data) :
    basename (s ++ "/" ++ t) = t := by
  unfold basename
  have hd : (s ++ "/" ++ t).data = s.data ++ '/' :: t.data := by
    rw [String.data_append, String.data_append]
    simp
  rw [hd, basenameChars_append_slash s.data t.data h]

/-- The inline f-string is compositional in its relative part. -/
theorem serverPath_append (sp : SharePoint) (a b : String) :
    serverPath sp (a ++ b) = serverPath sp a ++ b := by
  unfold serverPath
  exact (String.append_assoc _ a b).symm

/-- Looking up a freshly inserted key returns the inserted value. -/
theorem lookupL_insertL_self {α : Type} (s : List (String × α)) (k : String) (v : α) :
    lookupL (insertL s k v) k = some v := by
  simp [insertL, lookupL]

/-- `get_file_properties_from_folder` issues exactly the calls of its one
internal `get_files_list` call. -/
theorem get_file_properties_calls_eq (sp : SharePoint) (f : String) (w : World) :
    (get_file_properties_from_folder sp f w).calls = (get_files_list sp f w).calls := by
  unfold get_file_properties_from_folder
  rcases hr : (get_files_list sp f w).result with e | files <;> simp [hr]

/-- The first remote call of `download_file` is `File.open_binary` on the
full `/sites/{site}/{doc}/{source}` path. -/
theorem download_file_calls_head (sp : SharePoint) (src dest : String) (w : World) :
    (download_file sp src dest w).calls.head? =
      some (RemoteCall.openBinary (serverPath sp src)) := by
  unfold download_file _get_sharepoint_file_content
  rcases h : lookupL w.remote (serverPath sp src) with _ | b <;>
    simp [h, _save_file]

/-- C5: for every folder, `get_file_properties_from_folder` returns an eager
ordered list with exactly one metadata record per file handle returned by
`get_files_list` on that folder (the eager map of `projectFile`, hence in the
same order), each record projecting the handle's id, name, versions, size and
timestamps, with `file_size` equal to the file's byte length; it issues
exactly the remote calls of its single `get_files_list` call and no more,
fails exactly when it does, and leaves the world as it does. -/
theorem C5_metadata_projection (sp : SharePoint) (f : String) (w : World) :
    (get_file_properties_from_folder sp f w).result =
      ((get_files_list sp f w).result).map (List.map projectFile) ∧
    (get_file_properties_from_folder sp f w).calls = (get_files_list sp f w).calls ∧
    (get_file_properties_from_folder sp f w).world = (get_files_list sp f w).world ∧
    ∀ fh : FileHandle, (projectFile fh).file_size = fh.content.length := by
  refine ⟨?_, get_file_properties_calls_eq sp f w, ?_, fun fh => rfl⟩ <;>
    unfold get_file_properties_from_folder <;>
    rcases hr : (get_files_list sp f w).result with e | files <;>
    simp [hr, Except.map]

/-- C6: for every local path and remote folder, `upload_file` reads the local
file's full content and sends exactly one create-or-replace upload request,
named with the base name of the local path, carrying exactly those bytes, to
the folder resolved inline at `/sites/{site}/{doc}/{folder}`. -/
theorem C6_upload_single_request (sp : SharePoint) (lp dest : String) (w : World)
    (b : Bytes) (hread : lookupL w.localFiles lp = some b) :
    upload_file sp lp dest w =
      { result := .ok (),
        world := { w with remote := insertL w.remote (serverPath sp dest ++ "/" ++ basename lp) b },
        calls := [RemoteCall.getFolderByServerRelativePath (serverPath sp dest),
                  RemoteCall.uploadFile (serverPath sp dest) (basename lp) b] } := by
  unfold upload_file _get_local_file_content
  rw [hread]
  rfl

/-- Witness for C6 at a concrete client, file and world. -/
theorem C6_upload_single_request_witness :
    lookupL w0.localFiles "examples/test.csv" = some [49, 50, 51] ∧
    upload_file sp0 "examples/test.csv" "General" w0 =
      { result := .ok (),
        world := { w0 with remote := insertL w0.remote (serverPath sp0 "General" ++ "/" ++ basename "examples/test.csv") [49, 50, 51] },
        calls := [RemoteCall.getFolderByServerRelativePath (serverPath sp0 "General"),
                  RemoteCall.uploadFile (serverPath sp0 "General") (basename "examples/test.csv") [49, 50, 51]] } :=
  ⟨rfl, C6_upload_single_request sp0 "examples/test.csv" "General" w0 [49, 50, 51] rfl⟩

/-- C9: for every parent folder that the remote resolves, `get_files_list`
requests expansion of the folder's Files and Folders collections and returns
the file handles exactly as the remote API reports them, in that order, with
no re-sorting; `get_folder_list` symmetrically requests expansion of the
Folders collection and returns the child folder handles as reported. -/
theorem C9_listing_order (sp : SharePoint) (p : String) (w : World) (fd : FolderData)
    (h : lookupL w.remoteFolders (sp.doc ++ "/" ++ p) = some fd) :
    get_files_list sp p w =
      { result := .ok fd.files, world := w,
        calls := [RemoteCall.getFolderByServerRelativeUrl (sp.doc ++ "/" ++ p),
                  RemoteCall.expandGet (sp.doc ++ "/" ++ p) ["Files", "Folders"]] } ∧
    get_folder_list sp p w =
      { result := .ok fd.folders, world := w,
        calls := [RemoteCall.getFolderByServerRelativeUrl (sp.doc ++ "/" ++ p),
                  RemoteCall.expandGet (sp.doc ++ "/" ++ p) ["Folders"]] } := by
  refine ⟨?_, ?_⟩ <;>
    simp [get_files_list, get_folder_list, decorator_root_folder,
      get_files_list_body, get_folder_list_body, get_folder_by_server_relative_url, h]

/-- Witness for C9 at a concrete client, folder and world. -/
theorem C9_listing_order_witness :
    lookupL w0.remoteFolders (sp0.doc ++ "/" ++ "General") =
      some { files := [fh0], folders := ["Reports"] } ∧
    get_files_list sp0 "General" w0 =
      { result := .ok [fh0], world := w0,
        calls := [RemoteCall.getFolderByServerRelativeUrl (sp0.doc ++ "/" ++ "General"),
                  RemoteCall.expandGet (sp0.doc ++ "/" ++ "General") ["Files", "Folders"]] } ∧
    get_folder_list sp0 "General" w0 =
      { result := .ok ["Reports"], world := w0,
        calls := [RemoteCall.getFolderByServerRelativeUrl (sp0.doc ++ "/" ++ "General"),
                  RemoteCall.expandGet (sp0.doc ++ "/" ++ "General") ["Folders"]] } :=
  ⟨rfl, (C9_listing_order sp0 "General" w0 { files := [fh0], folders := ["Reports"] } rfl).1,
        (C9_listing_order sp0 "General" w0 { files := [fh0], folders := ["Reports"] } rfl).2⟩

/-- C10: for every call to `upload_file` in which reading the local file
fails, the failure propagates with no remote request issued at all (empty
call trace) and the world — in particular the remote store — unchanged: the
local read strictly precedes any remote interaction. -/
theorem C10_no_remote_on_local_failure (sp : SharePoint) (lp dest : String)
    (w : World) (h : lookupL w.localFiles lp = none) :
    upload_file sp lp dest w =
      { result := .error (.raw (.osError "open" lp)), world := w, calls := [] } := by
  unfold upload_file _get_local_file_content
  rw [h]

/-- Witness for C10 at a concrete missing local file. -/
theorem C10_no_remote_on_local_failure_witness :
    lookupL w0.localFiles "missing.csv" = none ∧
    upload_file sp0 "missing.csv" "General" w0 =
      { result := .error (.raw (.osError "open" "missing.csv")), world := w0, calls := [] } :=
  ⟨rfl, C10_no_remote_on_local_failure sp0 "missing.csv" "General" w0 rfl⟩

/-- C1 fails as stated: for the decorator-resolved operations the path sent
to the remote API is prefixed only with `{documentLibrary}/`, not with
`sites/{siteName}/{documentLibrary}/`.  Concretely, `get_files_list` on
folder `General` (site `ps.all`, library `Shared Documents`) sends
`Shared Documents/General`, which differs from the claimed
`sites/ps.all/Shared Documents/General`. -/
theorem C1_counterexample :
    (get_files_list sp0 "General" w0).calls.head? =
      some (RemoteCall.getFolderByServerRelativeUrl "Shared Documents/General") ∧
    "Shared Documents/General" ≠
      "sites/" ++ sp0.site_name ++ "/" ++ sp0.doc ++ "/" ++ "General" :=
  ⟨rfl, by decide⟩

/-- C1 (amended): the prefix is not uniform.  `create_folder`,
`get_files_list`, `get_folder_list` and `get_file_properties_from_folder`
send the caller's path prefixed with `{documentLibrary}/` only (the session
is already bound to `{baseUrl}/sites/{siteName}`), while `upload_file` and
`download_file` send it prefixed with `/sites/{siteName}/{documentLibrary}/`
(with a leading slash). -/
theorem C1_amended_prefixes (sp : SharePoint) (p q lp dest src : String)
    (w : World) (b : Bytes) (hread : lookupL w.localFiles lp = some b) :
    (create_folder sp p q w).calls.head? =
      some (RemoteCall.getFolderByServerRelativeUrl (sp.doc ++ "/" ++ p)) ∧
    (get_files_list sp p w).calls.head? =
      some (RemoteCall.getFolderByServerRelativeUrl (sp.doc ++ "/" ++ p)) ∧
    (get_folder_list sp p w).calls.head? =
      some (RemoteCall.getFolderByServerRelativeUrl (sp.doc ++ "/" ++ p)) ∧
    (get_file_properties_from_folder sp p w).calls.head? =
      some (RemoteCall.getFolderByServerRelativeUrl (sp.doc ++ "/" ++ p)) ∧
    (upload_file sp lp dest w).calls =
      [RemoteCall.getFolderByServerRelativePath ("/sites/" ++ sp.site_name ++ "/" ++ sp.doc ++ "/" ++ dest),
       RemoteCall.uploadFile ("/sites/" ++ sp.site_name ++ "/" ++ sp.doc ++ "/" ++ dest) (basename lp) b] ∧
    (download_file sp src dest w).calls.head? =
      some (RemoteCall.openBinary ("/sites/" ++ sp.site_name ++ "/" ++ sp.doc ++ "/" ++ src)) := by
  refine ⟨rfl, rfl, rfl, ?_, ?_, ?_⟩
  · rw [get_file_properties_calls_eq]
    rfl
  · unfold upload_file _get_local_file_content
    rw [hread]
    rfl
  · exact download_file_calls_head sp src dest w

/-- Witness for the amended C1 at a concrete client and world. -/
theorem C1_amended_prefixes_witness :
    lookupL w0.localFiles "examples/test.csv" = some [49, 50, 51] ∧
    ((create_folder sp0 "General" "sub" w0).calls.head? =
      some (RemoteCall.getFolderByServerRelativeUrl (sp0.doc ++ "/" ++ "General")) ∧
    (get_files_list sp0 "General" w0).calls.head? =
      some (RemoteCall.getFolderByServerRelativeUrl (sp0.doc ++ "/" ++ "General")) ∧
    (get_folder_list sp0 "General" w0).calls.head? =
      some (RemoteCall.getFolderByServerRelativeUrl (sp0.doc ++ "/" ++ "General")) ∧
    (get_file_properties_from_folder sp0 "General" w0).calls.head? =
      some (RemoteCall.getFolderByServerRelativeUrl (sp0.doc ++ "/" ++ "General")) ∧
    (upload_file sp0 "examples/test.csv" "General" w0).calls =
      [RemoteCall.getFolderByServerRelativePath ("/sites/" ++ sp0.site_name ++ "/" ++ sp0.doc ++ "/" ++ "General"),
       RemoteCall.uploadFile ("/sites/" ++ sp0.site_name ++ "/" ++ sp0.doc ++ "/" ++ "General") (basename "examples/test.csv") [49, 50, 51]] ∧
    (download_file sp0 "General/test.csv" "General" w0).calls.head? =
      some (RemoteCall.openBinary ("/sites/" ++ sp0.site_name ++ "/" ++ sp0.doc ++ "/" ++ "General/test.csv"))) :=
  ⟨rfl, C1_amended_prefixes sp0 "General" "sub" "examples/test.csv" "General"
    "General/test.csv" w0 [49, 50, 51] rfl⟩

/-- C2 fails as stated: on rejected credentials, construction surfaces the
session provider's own error unchanged — the code defines no
`AuthConfigError` and wraps nothing.  Concretely, with a provider that
rejects the credentials, `__post_init__` fails with the provider's raw auth
error, which is not an `AuthConfigError`-kind error. -/
theorem C2_counterexample :
    post_init badProvider "https://x.example.com" "u" "pw" "s" "Shared Documents" =
      .error (.raw (.authError "invalid credentials")) ∧
    failsWithAuthConfigError
      (post_init badProvider "https://x.example.com" "u" "pw" "s" "Shared Documents") = false :=
  ⟨rfl, rfl⟩

/-- C2 (amended): for every construction input whose credentials the session
provider rejects, construction fails by propagating the provider's own error
unchanged (not an `AuthConfigError` wrapper, which the code never produces),
without retrying, and no client value — hence no session handle — is
produced. -/
theorem C2_amended_raw_auth_error (provider : SessionProvider)
    (url u pw site doc : String) (e : CollabErr)
    (h : provider (url ++ "/sites/" ++ site) u pw = .error e) :
    post_init provider url u pw site doc = .error (.raw e) ∧
    (SPError.raw e).isRaw = true := by
  refine ⟨?_, rfl⟩
  unfold post_init
  rw [h]

/-- Witness for the amended C2 at the rejecting provider. -/
theorem C2_amended_raw_auth_error_witness :
    badProvider ("https://x.example.com" ++ "/sites/" ++ "s") "u" "pw" =
      .error (.authError "invalid credentials") ∧
    (post_init badProvider "https://x.example.com" "u" "pw" "s" "Shared Documents" =
      .error (.raw (.authError "invalid credentials")) ∧
    (SPError.raw (.authError "invalid credentials")).isRaw = true) :=
  ⟨rfl, C2_amended_raw_auth_error badProvider "https://x.example.com" "u" "pw" "s"
    "Shared Documents" (.authError "invalid credentials") rfl⟩

/-- C4 fails as stated: `upload_file` takes a folder path argument but does
not resolve it through the shared `decorator_root_folder` routine; it
resolves inline in `_send_file_to_sharepoint` via
`get_folder_by_server_relative_path` on a differently prefixed path.
Concretely, its trace never starts with the shared routine's resolution
call. -/
theorem C4_counterexample :
    resolvesViaSharedRoutine (upload_file sp0 "examples/test.csv" "General" w0) sp0 "General" = false ∧
    (upload_file sp0 "examples/test.csv" "General" w0).calls.head? =
      some (RemoteCall.getFolderByServerRelativePath "/sites/ps.all/Shared Documents/General") :=
  ⟨rfl, rfl⟩

/-- C4 (amended): `create_folder`, `get_files_list` and `get_folder_list`
each resolve their folder argument through the single shared
`decorator_root_folder` routine (prefixing with `{documentLibrary}/` and
invoking the session's folder lookup) before their bodies execute, and
`get_file_properties_from_folder` inherits exactly that resolution through
its internal `get_files_list` call; `upload_file`, however, resolves its
folder argument with separate inline logic
(`get_folder_by_server_relative_path` on `/sites/{siteName}/{documentLibrary}/...`),
not the shared routine. -/
theorem C4_amended_resolution (sp : SharePoint) (p q lp dest : String)
    (w : World) (b : Bytes) (hread : lookupL w.localFiles lp = some b) :
    resolvesViaSharedRoutine (create_folder sp p q w) sp p = true ∧
    resolvesViaSharedRoutine (get_files_list sp p w) sp p = true ∧
    resolvesViaSharedRoutine (get_folder_list sp p w) sp p = true ∧
    resolvesViaSharedRoutine (get_file_properties_from_folder sp p w) sp p = true ∧
    resolvesViaSharedRoutine (upload_file sp lp dest w) sp dest = false ∧
    (upload_file sp lp dest w).calls.head? =
      some (RemoteCall.getFolderByServerRelativePath (serverPath sp dest)) := by
  have hup : upload_file sp lp dest w =
      _send_file_to_sharepoint sp (basename lp) dest b w := by
    unfold upload_file _get_local_file_content
    rw [hread]
  refine ⟨?_, ?_, ?_, ?_, ?_, ?_⟩
  · simp [resolvesViaSharedRoutine, create_folder, decorator_root_folder,
      get_folder_by_server_relative_url]
  · simp [resolvesViaSharedRoutine, get_files_list, decorator_root_folder,
      get_folder_by_server_relative_url]
  · simp [resolvesViaSharedRoutine, get_folder_list, decorator_root_folder,
      get_folder_by_server_relative_url]
  · unfold resolvesViaSharedRoutine
    rw [get_file_properties_calls_eq]
    simp [get_files_list, decorator_root_folder, get_folder_by_server_relative_url]
  · rw [hup]
    rfl
  · rw [hup]
    rfl

/-- Witness for the amended C4 at a concrete client and world. -/
theorem C4_amended_resolution_witness :
    lookupL w0.localFiles "examples/test.csv" = some [49, 50, 51] ∧
    (resolvesViaSharedRoutine (create_folder sp0 "General" "sub" w0) sp0 "General" = true ∧
    resolvesViaSharedRoutine (get_files_list sp0 "General" w0) sp0 "General" = true ∧
    resolvesViaSharedRoutine (get_folder_list sp0 "General" w0) sp0 "General" = true ∧
    resolvesViaSharedRoutine (get_file_properties_from_folder sp0 "General" w0) sp0 "General" = true ∧
    resolvesViaSharedRoutine (upload_file sp0 "examples/test.csv" "General" w0) sp0 "General" = false ∧
    (upload_file sp0 "examples/test.csv" "General" w0).calls.head? =
      some (RemoteCall.getFolderByServerRelativePath (serverPath sp0 "General"))) :=
  ⟨rfl, C4_amended_resolution sp0 "General" "sub" "examples/test.csv" "General" w0 [49, 50, 51] rfl⟩

/-- C3: for every local file and remote folder on which `upload_file`
succeeds, a subsequent `download_file` of the same remote name (the base
name of the local path) into a fresh destination directory succeeds and
writes a local file at `os.path.join(destination, basename)` whose bytes are
identical to the original local file's bytes. -/
theorem C3_upload_download_round_trip (sp : SharePoint)
    (lp folder dest : String) (w : World) (b : Bytes)
    (hread : lookupL w.localFiles lp = some b)
    (hfresh : dest ∉ w.localDirs) :
    (upload_file sp lp folder w).result = .ok () ∧
    (download_file sp (folder ++ "/" ++ basename lp) dest (upload_file sp lp folder w).world).result = .ok () ∧
    lookupL (download_file sp (folder ++ "/" ++ basename lp) dest (upload_file sp lp folder w).world).world.localFiles (os_path_join dest (basename lp)) = some b := by
  have hup : upload_file sp lp folder w =
      { result := .ok (),
        world := { w with remote := insertL w.remote (serverPath sp folder ++ "/" ++ basename lp) b },
        calls := [RemoteCall.getFolderByServerRelativePath (serverPath sp folder),
                  RemoteCall.uploadFile (serverPath sp folder) (basename lp) b] } := by
    unfold upload_file _get_local_file_content
    rw [hread]
    rfl
  have hkey : serverPath sp (folder ++ "/" ++ basename lp) =
      serverPath sp folder ++ "/" ++ basename lp := by
    rw [serverPath_append sp (folder ++ "/") (basename lp), serverPath_append sp folder "/"]
  have hbase : basename (folder ++ "/" ++ basename lp) = basename lp :=
    basename_append folder (basename lp) (slash_not_mem_basename lp)
  rw [hup]
  simp only [download_file, _get_sharepoint_file_content, hkey, lookupL_insertL_self,
    hbase, _save_file, os_path_join]
  simp [hfresh, lookupL_insertL_self]

/-- C7: for every remote source path the remote store holds and every local
destination directory that does not yet exist, `download_file` reads the full
binary content, creates the destination directory, succeeds, and writes the
content to `os.path.join(destination, basename(source))`. -/
theorem C7_download_creates_dir (sp : SharePoint) (src dest : String) (w : World)
    (b : Bytes) (hremote : lookupL w.remote (serverPath sp src) = some b)
    (hfresh : dest ∉ w.localDirs) :
    (download_file sp src dest w).result = .ok () ∧
    (download_file sp src dest w).world.localDirs = dest :: w.localDirs ∧
    lookupL (download_file sp src dest w).world.localFiles
      (os_path_join dest (basename src)) = some b := by
  simp [download_file, _get_sharepoint_file_content, hremote, _save_file, hfresh,
    lookupL_insertL_self]

/-- Witness for C7 at a concrete remote file and a fresh local directory. -/
theorem C7_download_creates_dir_witness :
    lookupL wDl.remote (serverPath sp0 "General/test.csv") = some [104, 105] ∧
    ("downloads" ∉ wDl.localDirs) ∧
    ((download_file sp0 "General/test.csv" "downloads" wDl).result = .ok () ∧
    (download_file sp0 "General/test.csv" "downloads" wDl).world.localDirs = "downloads" :: wDl.localDirs ∧
    lookupL (download_file sp0 "General/test.csv" "downloads" wDl).world.localFiles
      (os_path_join "downloads" (basename "General/test.csv")) = some [104, 105]) :=
  ⟨rfl, by decide,
   C7_download_creates_dir sp0 "General/test.csv" "downloads" wDl [104, 105] rfl (by decide)⟩

/-- Witness for C3 at a concrete local file, remote folder and fresh
destination. -/
theorem C3_upload_download_round_trip_witness :
    lookupL w0.localFiles "examples/test.csv" = some [49, 50, 51] ∧
    ("downloads" ∉ w0.localDirs) ∧
    ((upload_file sp0 "examples/test.csv" "General" w0).result = .ok () ∧
    (download_file sp0 ("General" ++ "/" ++ basename "examples/test.csv") "downloads" (upload_file sp0 "examples/test.csv" "General" w0).world).result = .ok () ∧
    lookupL (download_file sp0 ("General" ++ "/" ++ basename "examples/test.csv") "downloads" (upload_file sp0 "examples/test.csv" "General" w0).world).world.localFiles (os_path_join "downloads" (basename "examples/test.csv")) = some [49, 50, 51]) :=
  ⟨rfl, by decide,
   C3_upload_download_round_trip sp0 "examples/test.csv" "General" "downloads" w0
     [49, 50, 51] rfl (by decide)⟩

/-- C8 fails as stated: failures are propagated but they are not wrapped
with the operation name and attempted path into one of the three error
kinds — the code contains no exception handling and no such error types.
Concretely, `upload_file` on a missing local file fails with the OS's own
raw error, which is not one of the wrapped kinds. -/
theorem C8_counterexample :
    (upload_file sp0 "missing.csv" "General" w0).result =
      .error (.raw (.osError "open" "missing.csv")) ∧
    failsWrapped (upload_file sp0 "missing.csv" "General" w0) = false :=
  ⟨rfl, rfl⟩

/-- C8 (amended): no failure is swallowed or retried — when a collaborator
call fails, the whole operation fails at once (the caller gets an error,
never a partial result), with the world unchanged, every collaborator call
attempted exactly once, and the failing call last in the trace; the
collaborator's error is propagated to the caller unchanged, never wrapped
with operation name and path into
`AuthConfigError`/`RemoteIOError`/`LocalIOError`, which the code never
constructs.  Each of the six operations' failure modes is pinned by a full
run equality: the failed local read of `upload_file`, the failed remote read
of `download_file`, and the failed folder query of the four
decorator-resolved operations. -/
theorem C8_amended_raw_propagation (sp : SharePoint) (lp dest src p q f : String)
    (w : World)
    (hl : lookupL w.localFiles lp = none)
    (hr : lookupL w.remote (serverPath sp src) = none)
    (hp : lookupL w.remoteFolders (sp.doc ++ "/" ++ p) = none)
    (hf : lookupL w.remoteFolders (sp.doc ++ "/" ++ f) = none) :
    upload_file sp lp dest w =
      { result := .error (.raw (.osError "open" lp)), world := w, calls := [] } ∧
    download_file sp src dest w =
      { result := .error (.raw (.clientRequestError (serverPath sp src))), world := w,
        calls := [RemoteCall.openBinary (serverPath sp src)] } ∧
    create_folder sp p q w =
      { result := .error (.raw (.clientRequestError (sp.doc ++ "/" ++ p))), world := w,
        calls := [RemoteCall.getFolderByServerRelativeUrl (sp.doc ++ "/" ++ p),
                  RemoteCall.foldersAdd (sp.doc ++ "/" ++ p) q] } ∧
    get_files_list sp p w =
      { result := .error (.raw (.clientRequestError (sp.doc ++ "/" ++ p))), world := w,
        calls := [RemoteCall.getFolderByServerRelativeUrl (sp.doc ++ "/" ++ p),
                  RemoteCall.expandGet (sp.doc ++ "/" ++ p) ["Files", "Folders"]] } ∧
    get_folder_list sp p w =
      { result := .error (.raw (.clientRequestError (sp.doc ++ "/" ++ p))), world := w,
        calls := [RemoteCall.getFolderByServerRelativeUrl (sp.doc ++ "/" ++ p),
                  RemoteCall.expandGet (sp.doc ++ "/" ++ p) ["Folders"]] } ∧
    get_file_properties_from_folder sp f w =
      { result := .error (.raw (.clientRequestError (sp.doc ++ "/" ++ f))), world := w,
        calls := [RemoteCall.getFolderByServerRelativeUrl (sp.doc ++ "/" ++ f),
                  RemoteCall.expandGet (sp.doc ++ "/" ++ f) ["Files", "Folders"]] } := by
  refine ⟨?_, ?_, ?_, ?_, ?_, ?_⟩
  · unfold upload_file _get_local_file_content
    rw [hl]
  · simp only [download_file, _get_sharepoint_file_content, hr]
  · simp [create_folder, decorator_root_folder, create_folder_body,
      get_folder_by_server_relative_url, hp]
  · simp [get_files_list, decorator_root_folder, get_files_list_body,
      get_folder_by_server_relative_url, hp]
  · simp [get_folder_list, decorator_root_folder, get_folder_list_body,
      get_folder_by_server_relative_url, hp]
  · simp [get_file_properties_from_folder, get_files_list, decorator_root_folder,
      get_files_list_body, get_folder_by_server_relative_url, hf]

/-- Witness for the amended C8 at a concrete missing local file, missing
remote file and missing remote folder. -/
theorem C8_amended_raw_propagation_witness :
    lookupL w0.localFiles "missing.csv" = none ∧
    lookupL w0.remote (serverPath sp0 "absent/file.bin") = none ∧
    lookupL w0.remoteFolders (sp0.doc ++ "/" ++ "Nope") = none ∧
    (upload_file sp0 "missing.csv" "dst" w0 =
      { result := .error (.raw (.osError "open" "missing.csv")), world := w0, calls := [] } ∧
    download_file sp0 "absent/file.bin" "dst" w0 =
      { result := .error (.raw (.clientRequestError (serverPath sp0 "absent/file.bin"))), world := w0,
        calls := [RemoteCall.openBinary (serverPath sp0 "absent/file.bin")] } ∧
    create_folder sp0 "Nope" "sub" w0 =
      { result := .error (.raw (.clientRequestError (sp0.doc ++ "/" ++ "Nope"))), world := w0,
        calls := [RemoteCall.getFolderByServerRelativeUrl (sp0.doc ++ "/" ++ "Nope"),
                  RemoteCall.foldersAdd (sp0.doc ++ "/" ++ "Nope") "sub"] } ∧
    get_files_list sp0 "Nope" w0 =
      { result := .error (.raw (.clientRequestError (sp0.doc ++ "/" ++ "Nope"))), world := w0,
        calls := [RemoteCall.getFolderByServerRelativeUrl (sp0.doc ++ "/" ++ "Nope"),
                  RemoteCall.expandGet (sp0.doc ++ "/" ++ "Nope") ["Files", "Folders"]] } ∧
    get_folder_list sp0 "Nope" w0 =
      { result := .error (.raw (.clientRequestError (sp0.doc ++ "/" ++ "Nope"))), world := w0,
        calls := [RemoteCall.getFolderByServerRelativeUrl (sp0.doc ++ "/" ++ "Nope"),
                  RemoteCall.expandGet (sp0.doc ++ "/" ++ "Nope") ["Folders"]] } ∧
    get_file_properties_from_folder sp0 "Nope" w0 =
      { result := .error (.raw (.clientRequestError (sp0.doc ++ "/" ++ "Nope"))), world := w0,
        calls := [RemoteCall.getFolderByServerRelativeUrl (sp0.doc ++ "/" ++ "Nope"),
                  RemoteCall.expandGet (sp0.doc ++ "/" ++ "Nope") ["Files", "Folders"]] }) :=
  ⟨rfl, rfl, rfl,
   C8_amended_raw_propagation sp0 "missing.csv" "dst" "absent/file.bin" "Nope" "sub"
     "Nope" w0 rfl rfl rfl rfl⟩
